import Mathlib

/-!
Verification of the incremental SSE response assembler of the chat frontend
(`query_llm_streaming` in `practices/practice-03-chatapp/frontend/main.py`)
and of the SSE producer of the backend (`stream_ai_response` in
`practices/practice-02-openai-llm-app-to-rest-api/main.py`).

Strings are modelled at the code-point level (Python strings are sequences
of code points), so `line_str[6:]` is `dropChars 6` and
`line_str.startswith("data: ")` is `startsWithData`.
-/

/-- Cursor glyph appended to the text handed to the display placeholder
during streaming (source line 163: `placeholder.markdown(result + "▌")`). -/
def cursor : String := "▌"

/-- Cursor glyph as a single code point. -/
def cursorChar : Char := '▌'

/-- Code-point level prefix test, the semantics of Python's
`line_str.startswith(p)`: `charsMatch p.data s.data`. -/
def charsMatch : List Char → List Char → Bool
  | [], _ => true
  | _ :: _, [] => false
  | p :: ps, c :: cs => p == c && charsMatch ps cs

/-- Test for the 6-character literal `data: ` at the start of a line,
the semantics of `line_str.startswith("data: ")` (source line 160). -/
def startsWithData (line : String) : Bool :=
  charsMatch ("data: ").data line.data

/-- Code-point slice `line_str[n:]` (source line 161 uses `line_str[6:]`). -/
def dropChars (n : Nat) (line : String) : String :=
  ⟨line.data.drop n⟩

/-- Observable state of the streaming loop of `query_llm_streaming`:
`result` is the accumulated text (source line 154 and 162), `updates` records
the accumulated text at each in-loop `placeholder.markdown` call, and
`displays` records the exact string passed to `placeholder.markdown` in the
loop (source line 163: the accumulated text with the cursor glyph appended). -/
structure StreamState where
  result : String
  updates : List String
  displays : List String
deriving DecidableEq

/-- State at loop entry (source line 154: `result = ""`). -/
def initState : StreamState := { result := "", updates := [], displays := [] }

/-- Body of the `for line in response.iter_lines()` loop (source lines
157-163): a falsy (empty) line is skipped; a line with the `data: ` prefix
contributes `line_str[6:]` to `result` and triggers
`placeholder.markdown(result + "▌")`; any other line does nothing. -/
def processLine (s : StreamState) (line : String) : StreamState :=
  if line ≠ "" then
    if startsWithData line then
      let chunk := dropChars 6 line
      let r := s.result ++ chunk
      { result := r, updates := s.updates ++ [r],
        displays := s.displays ++ [r ++ cursor] }
    else s
  else s

/-- The whole loop over the lines the transport delivers. -/
def processLines (s : StreamState) (lines : List String) : StreamState :=
  lines.foldl processLine s

/-- Behaviour of the transport, as `query_llm_streaming` can observe it:
either `requests.post` itself raises, or a response with a status code is
obtained and `iter_lines` yields `lines` and then either ends cleanly
(`err = none`) or raises (`err = some msg`). -/
inductive TransportBehavior where
  | postError (msg : String)
  | ok (status : Nat) (lines : List String) (err : Option String)
deriving DecidableEq

/-- Everything observable from one call of `query_llm_streaming`: the value
returned to the caller, the strings passed to `placeholder.markdown`, and
the strings passed to `st.error`. -/
structure RunLog where
  ret : Option String
  displays : List String
  errors : List String
deriving DecidableEq

/-- The function `query_llm_streaming` (source lines 139-172).  On a raised
`requests.post` the `except` clause reports `Streaming failed: <msg>` and
returns `None`.  On status 200 the loop runs; a clean end performs a final
`placeholder.markdown(result)` and returns `result`; an exception raised by
the iteration is caught by the same `except` clause, which reports the error
and returns `None`, discarding `result` from the return value.  On any other
status the body is not read, `Streaming error (<status>)` is reported, and
`None` is returned. -/
def query_llm_streaming : TransportBehavior → RunLog
  | .postError msg =>
      { ret := none, displays := [],
        errors := [("Streaming failed: ") ++ msg] }
  | .ok status lines err =>
      if status = 200 then
        let s := processLines initState lines
        match err with
        | none =>
            { ret := some s.result, displays := s.displays ++ [s.result],
              errors := [] }
        | some msg =>
            { ret := none, displays := s.displays,
              errors := [("Streaming failed: ") ++ msg] }
      else
        { ret := none, displays := [],
          errors := [("Streaming error (") ++ toString status ++ (")")] }

/-- The fragment a single line contributes, if any: a non-empty line with
the `data: ` prefix contributes its remainder (possibly empty); every other
line contributes nothing. -/
def fragmentOf (line : String) : Option String :=
  if line ≠ "" then
    if startsWithData line then some (dropChars 6 line) else none
  else none

/-- The fragments accepted from a line sequence, in delivery order. -/
def fragments : List String → List String
  | [] => []
  | l :: ls =>
    match fragmentOf l with
    | some f => f :: fragments ls
    | none => fragments ls

/-- Drops the empty strings of a list, keeping order. -/
def dropEmpty : List String → List String
  | [] => []
  | f :: fs => if f = "" then dropEmpty fs else f :: dropEmpty fs

/-- Concatenation of a list of strings, with no separators. -/
def concatAll : List String → String
  | [] => ""
  | f :: fs => f ++ concatAll fs

/-- The successive values `acc ++ f1`, `acc ++ f1 ++ f2`, ... taken by the
accumulated text while the fragments `f1, f2, ...` are appended. -/
def snapshotsFrom (acc : String) : List String → List String
  | [] => []
  | f :: fs => (acc ++ f) :: snapshotsFrom (acc ++ f) fs

/-- One SSE frame per chunk whose content is a non-empty word: the body of
the `for chunk in stream` loop of `stream_ai_response` (backend source lines
119-122), a chunk's `delta.content` modelled as an `Option String` and
`content or ""` as `getD ""`. -/
def tokenFrames : List (Option String) → List String
  | [] => []
  | c :: rest =>
    let word := c.getD ""
    if word ≠ "" then (("data: ") ++ word ++ ("\n\n")) :: tokenFrames rest
    else tokenFrames rest

/-- The generator `stream_ai_response` (backend source lines 100-128): the
frames for the chunks delivered before the stream ends or raises, then
either the completion frame `"\n\n"` on a clean end or the single
`data: [ERROR: <msg>]\n\n` frame when the call or the iteration raises. -/
def stream_ai_response (chunks : List (Option String)) (err : Option String) :
    List String :=
  match err with
  | none => tokenFrames chunks ++ [("\n\n")]
  | some msg => tokenFrames chunks ++ [("data: [ERROR: ") ++ msg ++ ("]\n\n")]

/-- The non-empty token words of a chunk sequence, in generation order. -/
def nonEmptyTokens : List (Option String) → List String
  | [] => []
  | c :: rest =>
    match c with
    | some w => if w = "" then nonEmptyTokens rest else w :: nonEmptyTokens rest
    | none => nonEmptyTokens rest

/-! Helper lemmas. -/

theorem processLine_of_skip (s : StreamState) (line : String)
    (h : fragmentOf line = none) : processLine s line = s := by
  unfold fragmentOf at h
  unfold processLine
  by_cases h1 : line = ""
  · simp [h1]
  · by_cases h2 : startsWithData line = true
    · simp [h1, h2] at h
    · simp [h1, h2]

theorem processLine_of_accept (s : StreamState) (line frag : String)
    (h : fragmentOf line = some frag) :
    processLine s line =
      { result := s.result ++ frag,
        updates := s.updates ++ [s.result ++ frag],
        displays := s.displays ++ [s.result ++ frag ++ cursor] } := by
  unfold fragmentOf at h
  by_cases h1 : line = ""
  · simp [h1] at h
  · by_cases h2 : startsWithData line = true
    · simp [h1, h2] at h
      unfold processLine
      simp [h1, h2, h]
    · simp [h1, h2] at h

theorem processLines_eq (lines : List String) : ∀ s : StreamState,
    processLines s lines =
      { result := s.result ++ concatAll (fragments lines),
        updates := s.updates ++ snapshotsFrom s.result (fragments lines),
        displays := s.displays ++
          (snapshotsFrom s.result (fragments lines)).map (fun u => u ++ cursor) } := by
  induction lines with
  | nil =>
    intro s
    cases s
    simp [processLines, fragments, concatAll, snapshotsFrom, String.append_empty]
  | cons l ls ih =>
    intro s
    have hstep : processLines s (l :: ls) = processLines (processLine s l) ls := by
      simp [processLines]
    cases hf : fragmentOf l with
    | none =>
      rw [hstep, processLine_of_skip s l hf, ih]
      simp [fragments, hf]
    | some frag =>
      rw [hstep, processLine_of_accept s l frag hf, ih]
      simp [fragments, hf, concatAll, snapshotsFrom, String.append_assoc]

theorem concatAll_dropEmpty (fs : List String) :
    concatAll (dropEmpty fs) = concatAll fs := by
  induction fs with
  | nil => rfl
  | cons f fs ih =>
    by_cases h : f = ""
    · simp [dropEmpty, concatAll, h, ih, String.empty_append]
    · simp [dropEmpty, concatAll, h, ih]

theorem length_snapshotsFrom (fs : List String) : ∀ acc : String,
    (snapshotsFrom acc fs).length = fs.length := by
  induction fs with
  | nil => intro acc; rfl
  | cons f fs ih => intro acc; simp [snapshotsFrom, ih]

theorem chain_snapshotsFrom (fs : List String) : ∀ acc : String,
    List.Chain' (fun a b => ∃ t, a ++ t = b) (snapshotsFrom acc fs) := by
  induction fs with
  | nil => intro acc; simp [snapshotsFrom]
  | cons f gs ih =>
    intro acc
    cases gs with
    | nil => simp [snapshotsFrom]
    | cons g gs =>
      have hc := ih (acc ++ f)
      simp only [snapshotsFrom] at hc ⊢
      exact List.Chain'.cons ⟨g, rfl⟩ hc

theorem self_ne_append (a t : String) (ht : t ≠ "") : a ≠ a ++ t := by
  intro h
  apply ht
  have hlen : a.length + t.length = a.length := by
    rw [← String.length_append, ← h]
  have ht0 : t.length = 0 := by omega
  cases t with
  | mk d =>
    cases d with
    | nil => rfl
    | cons c cs => simp [String.length] at ht0

theorem chainStrict_snapshotsFrom (fs : List String)
    (hne : ∀ f ∈ fs, f ≠ "") : ∀ acc : String,
    List.Chain' (fun a b => a ≠ b ∧ ∃ t, a ++ t = b) (snapshotsFrom acc fs) := by
  induction fs with
  | nil => intro acc; simp [snapshotsFrom]
  | cons f gs ih =>
    intro acc
    cases gs with
    | nil => simp [snapshotsFrom]
    | cons g gs =>
      have hg : g ≠ "" := hne g (by simp)
      have hc := ih (fun x hx => hne x (List.mem_cons_of_mem f hx)) (acc ++ f)
      simp only [snapshotsFrom] at hc ⊢
      exact List.Chain'.cons ⟨self_ne_append (acc ++ f) g hg, g, rfl⟩ hc

theorem getLast_snapshotsFrom (fs : List String) : ∀ acc : String, fs ≠ [] →
    (snapshotsFrom acc fs).getLast? = some (acc ++ concatAll fs) := by
  induction fs with
  | nil => intro acc h; exact absurd rfl h
  | cons f gs ih =>
    intro acc _
    cases gs with
    | nil => simp [snapshotsFrom, concatAll, String.append_empty]
    | cons g gs =>
      have hc := ih (acc ++ f) (by simp)
      simp only [snapshotsFrom] at hc ⊢
      rw [List.getLast?_cons_cons, hc]
      simp [concatAll, String.append_assoc]

theorem mem_data_concatAll (c : Char) (fs : List String)
    (h : c ∈ (concatAll fs).data) : ∃ f ∈ fs, c ∈ f.data := by
  induction fs with
  | nil => exact absurd h (List.not_mem_nil c)
  | cons f fs ih =>
    rw [show concatAll (f :: fs) = f ++ concatAll fs from rfl,
      String.data_append] at h
    rcases List.mem_append.mp h with h1 | h2
    · exact ⟨f, List.mem_cons_self f fs, h1⟩
    · obtain ⟨g, hg, hc⟩ := ih h2
      exact ⟨g, List.mem_cons_of_mem f hg, hc⟩

theorem tokenFrames_eq (chunks : List (Option String)) :
    tokenFrames chunks =
      (nonEmptyTokens chunks).map (fun w => ("data: ") ++ w ++ ("\n\n")) := by
  induction chunks with
  | nil => rfl
  | cons c rest ih =>
    cases c with
    | none => simp [tokenFrames, nonEmptyTokens, Option.getD, ih]
    | some w =>
      by_cases h : w = ""
      · simp [tokenFrames, nonEmptyTokens, Option.getD, h, ih]
      · simp [tokenFrames, nonEmptyTokens, Option.getD, h, ih]

/-! Claim theorems. -/

/-- Claim C1: when the transport yields a finite line sequence and ends
cleanly, the returned text is exactly the concatenation of the accepted
non-empty fragments, in delivery order, with no separators, and no error is
reported. -/
theorem c1_complete_is_exact_concatenation (lines : List String) :
    (query_llm_streaming (.ok 200 lines none)).ret =
      some (concatAll (dropEmpty (fragments lines))) ∧
    (query_llm_streaming (.ok 200 lines none)).errors = [] := by
  constructor
  · have hr : (processLines initState lines).result =
        concatAll (fragments lines) := by
      rw [processLines_eq lines initState]
      simp [initState, String.empty_append]
    simp [query_llm_streaming, hr, concatAll_dropEmpty]
  · simp [query_llm_streaming]

/-- Claim C2 counterexample: after accepting the fragment `Hi` the transport
raises, the accumulated text at the failure point is `Hi`, yet the function
returns `None` — the partial text is not returned to the caller as the claim
states. -/
theorem c2_counterexample :
    (query_llm_streaming (.ok 200 [("data: Hi")] (some ("boom")))).ret = none ∧
    (processLines initState [("data: Hi")]).result = ("Hi") := by decide

/-- Claim C2 amended: when the transport raises after fragments `f1..fk`
were accepted, the error is reported as `Streaming failed: <message>`, the
accumulated text at the failure point equals `f1+...+fk` and stays visible
only through the display updates already made, and the function returns
`None` — the partial text is discarded from the return value. -/
theorem c2_amended_failure_returns_none (lines : List String) (msg : String) :
    query_llm_streaming (.ok 200 lines (some msg)) =
      { ret := none,
        displays := (processLines initState lines).displays,
        errors := [("Streaming failed: ") ++ msg] } ∧
    (processLines initState lines).result =
      concatAll (dropEmpty (fragments lines)) := by
  constructor
  · simp [query_llm_streaming]
  · have hp := processLines_eq lines initState
    rw [hp]
    simp [initState, String.empty_append, concatAll_dropEmpty]

/-- Claim C3 counterexample: the line that is exactly `data: ` leaves the
accumulated text unchanged but does invoke the display callback once (the
unchanged text with the cursor glyph is passed to `placeholder.markdown`),
contradicting the claim that no invocation happens. -/
theorem c3_counterexample :
    (processLine initState ("data: ")).result = initState.result ∧
    (processLine initState ("data: ")).displays = [("▌")] := by decide

/-- Claim C3 amended: at any point of the line sequence, a line that is
exactly `data: ` leaves the accumulated text unchanged but does trigger
exactly one invocation of the display callback, with the unchanged text. -/
theorem c3_amended_empty_fragment_updates_display (s : StreamState) :
    processLine s ("data: ") =
      { result := s.result,
        updates := s.updates ++ [s.result],
        displays := s.displays ++ [s.result ++ cursor] } := by
  have h : fragmentOf ("data: ") = some ("") := by decide
  rw [processLine_of_accept s ("data: ") ("") h]
  simp [String.append_empty]

/-- Claim C4: a line without the 6-character `data: ` literal at its start
(blank keepalive lines included) is silently dropped: the loop state —
accumulated text, update record, display record — is unchanged, and no
error is reported on a clean run containing such a line. -/
theorem c4_nonmatching_line_dropped (s : StreamState) (line : String)
    (h : startsWithData line = false) :
    processLine s line = s ∧
    (query_llm_streaming (.ok 200 [line] none)).errors = [] := by
  have hf : fragmentOf line = none := by
    unfold fragmentOf
    by_cases h1 : line = ""
    · simp [h1]
    · simp [h1, h]
  exact ⟨processLine_of_skip s line hf, by simp [query_llm_streaming]⟩

/-- Claim C4 witness: the keepalive comment line `:keepalive` satisfies the
hypothesis and is dropped without any observable effect. -/
theorem c4_witness :
    startsWithData (":keepalive") = false ∧
    (processLine initState (":keepalive") = initState ∧
      (query_llm_streaming (.ok 200 [(":keepalive")] none)).errors = []) :=
  ⟨by decide, c4_nonmatching_line_dropped initState (":keepalive") (by decide)⟩

/-- Claim C5 counterexample: on the single line `data: ` the display
callback fires once although there are zero accepted non-empty fragments,
contradicting the claim that it fires exactly once per accepted non-empty
fragment. -/
theorem c5_counterexample :
    (processLines initState [("data: ")]).updates.length = 1 ∧
    dropEmpty (fragments [("data: ")]) = [] := by decide

/-- Claim C5 amended: the display callback fires exactly once per accepted
fragment — empty fragments from `data: ` lines included — in delivery
order; the text values it receives are the successive concatenations of the
accepted fragments, each a prefix of the next, the last one being the final
text; the growth is strict whenever every accepted fragment is non-empty. -/
theorem c5_amended_update_sequence (lines : List String) :
    ((processLines initState lines).updates).length = (fragments lines).length ∧
    (processLines initState lines).updates =
      snapshotsFrom ("") (fragments lines) ∧
    List.Chain' (fun a b => ∃ t, a ++ t = b)
      (processLines initState lines).updates ∧
    ((processLines initState lines).updates = [] ∨
      ((processLines initState lines).updates).getLast? =
        some (processLines initState lines).result) ∧
    ((∀ f ∈ fragments lines, f ≠ "") →
      List.Chain' (fun a b => a ≠ b ∧ ∃ t, a ++ t = b)
        (processLines initState lines).updates) := by
  have hp := processLines_eq lines initState
  rw [hp]
  refine ⟨?_, ?_, ?_, ?_, ?_⟩
  · simp [initState, length_snapshotsFrom]
  · simp [initState]
  · simp only [initState, List.nil_append]
    exact chain_snapshotsFrom (fragments lines) ("")
  · cases hfs : fragments lines with
    | nil => left; simp [initState, hfs, snapshotsFrom]
    | cons g gs =>
      right
      simp only [initState, List.nil_append]
      exact getLast_snapshotsFrom (g :: gs) ("") (by simp)
  · intro hne
    simp only [initState, List.nil_append]
    exact chainStrict_snapshotsFrom (fragments lines) hne ("")

/-- Claim C5 witness for the strictness hypothesis: with the two non-empty
fragments `a` and `bc` the update sequence grows strictly by prefix. -/
theorem c5_witness :
    List.Chain' (fun a b => a ≠ b ∧ ∃ t, a ++ t = b)
      (processLines initState [("data: a"), ("data: bc")]).updates :=
  (c5_amended_update_sequence [("data: a"), ("data: bc")]).2.2.2.2 (by decide)

/-- Claim C6: for every transport behaviour — clean end, failed POST,
non-200 status, or an error raised at any point of the iteration — the
function produces exactly one outcome: either a returned text with no error
reported, or a `None` return with exactly one error message reported; no
exception escapes its boundary. -/
theorem c6_single_outcome (t : TransportBehavior) :
    ((∃ text, (query_llm_streaming t).ret = some text) ∧
      (query_llm_streaming t).errors = []) ∨
    ((query_llm_streaming t).ret = none ∧
      (query_llm_streaming t).errors.length = 1) := by
  cases t with
  | postError msg => right; simp [query_llm_streaming]
  | ok status lines err =>
    by_cases h : status = 200
    · cases err with
      | none => left; simp [query_llm_streaming, h]
      | some msg => right; simp [query_llm_streaming, h]
    · right; simp [query_llm_streaming, h]

/-- Claim C7: the cursor glyph is display-only — whenever it occurs in the
accumulated response text, it occurred inside one of the accepted
fragments; the loop itself never introduces it into the response. -/
theorem c7_cursor_not_in_result (lines : List String)
    (h : cursorChar ∈ ((processLines initState lines).result).data) :
    ∃ f ∈ fragments lines, cursorChar ∈ f.data := by
  rw [processLines_eq lines initState] at h
  simp only [initState, String.empty_append] at h
  exact mem_data_concatAll cursorChar (fragments lines) h

/-- Claim C7 witness: a delivered fragment containing the glyph puts it in
the response, and it indeed traces back to that fragment. -/
theorem c7_witness :
    cursorChar ∈ ((processLines initState [("data: a▌")]).result).data ∧
    ∃ f ∈ fragments [("data: a▌")], cursorChar ∈ f.data :=
  ⟨by decide, c7_cursor_not_in_result [("data: a▌")] (by decide)⟩

/-- Claim C8: the two end-to-end scenarios — the accepted fragments of
`["data: Hello", "", "data: , world", "data: !", ""]` assemble to
`Hello, world!`, and `[": keepalive", "data: OK"]` assembles to `OK` with
the keepalive line ignored. -/
theorem c8_scenarios :
    (query_llm_streaming (.ok 200
      [("data: Hello"), (""), ("data: , world"), ("data: !"), ("")]
      none)).ret = some ("Hello, world!") ∧
    (query_llm_streaming (.ok 200 [(": keepalive"), ("data: OK")]
      none)).ret = some ("OK") := by decide

/-- Claim C9: the backend generator emits one `data: <token>\n\n` frame per
non-empty generated token, in generation order, then a final blank-line
frame on a clean end; when the LLM call or the iteration raises, the frames
already produced are followed by a single `data: [ERROR: <message>]\n\n`
frame instead. -/
theorem c9_producer_frames (chunks : List (Option String)) (msg : String) :
    stream_ai_response chunks none =
      (nonEmptyTokens chunks).map (fun w => ("data: ") ++ w ++ ("\n\n")) ++
        [("\n\n")] ∧
    stream_ai_response chunks (some msg) =
      (nonEmptyTokens chunks).map (fun w => ("data: ") ++ w ++ ("\n\n")) ++
        [("data: [ERROR: ") ++ msg ++ ("]\n\n")] := by
  constructor <;> simp [stream_ai_response, tokenFrames_eq]

/-- Claim C10: on any status code other than 200 the body is never read: no
display update happens, a single `Streaming error (<status>)` message is
reported, and `None` is returned, whatever the body lines would have been. -/
theorem c10_non200_reads_nothing (status : Nat) (lines : List String)
    (err : Option String) (h : status ≠ 200) :
    query_llm_streaming (.ok status lines err) =
      { ret := none, displays := [],
        errors := [("Streaming error (") ++ toString status ++ (")")] } := by
  simp [query_llm_streaming, h]

/-- Claim C10 witness: a 500 response with a well-formed body is rejected
without reading it. -/
theorem c10_witness :
    query_llm_streaming (.ok 500 [("data: x")] none) =
      { ret := none, displays := [],
        errors := [("Streaming error (") ++ toString (500 : Nat) ++ (")")] } :=
  c10_non200_reads_nothing 500 [("data: x")] none (by decide)
